import Mathlib

/-!
Shallow embedding of the asyncc coroutine mechanism (src/asyncc.h) and the
demonstration coroutine bfunc (src/examples/example1.c).

The arena is a byte-addressed memory.  All header and frame fields in the
source are uint16_t values accessed at even byte offsets; we model a 16-bit
field as two bytes (low byte first).  Since the C code only ever reads these
fields back with the same 16-bit accesses it wrote them with, the byte order
is unobservable; only the byte offsets (0, 2, 4, ...) and the 16-bit
truncation behaviour matter.
-/

namespace Asyncc

/-- Arena memory: byte-addressed.  Values are reduced mod 256 on every read,
so arbitrary functions behave as byte stores. -/
abbrev Mem := Nat → Nat

/-- Read the 16-bit field stored at byte offset `off` (models a uint16_t
access such as `*((uint16_t*)s+k)` at byte offset `2*k`). -/
def get16 (m : Mem) (off : Nat) : Nat :=
  m off % 256 + 256 * (m (off + 1) % 256)

/-- Store a 16-bit value at byte offset `off` (models a uint16_t store). -/
def set16 (m : Mem) (off v : Nat) : Mem :=
  fun a => if a = off then v % 256 else if a = off + 1 then v % 65536 / 256 else m a

/-- enum async, line 56: the NOT-STARTED sentinel. -/
def ASYNC_INIT : Nat := 0

/-- enum async, line 57: ASYNC_CONT = ASYNC_INIT. -/
def ASYNC_CONT : Nat := ASYNC_INIT

/-- enum async, line 58. -/
def ASYNC_ERR : Nat := 1

/-- enum async, line 59: the terminal sentinel. -/
def ASYNC_DONE : Nat := 2

/-- async_init (lines 84-87): word 0 (byte offset 0) := 4, word 1 (byte
offset 2) := len, word 2 (byte offset 4) := ASYNC_INIT. -/
def async_init (m : Mem) (len : Nat) : Mem :=
  set16 (set16 (set16 m 0 4) 2 len) 4 ASYNC_INIT

/-- Header size: the value the source writes into writeOffset at
initialization (frames start at byte 4, after writeOffset and capacity). -/
def headerSize : Nat := 4

/-- a_push (line 104): the uint16 field at byte 0 grows by the frame size,
with 16-bit wraparound. -/
def a_push (m : Mem) (size : Nat) : Mem :=
  set16 m 0 ((get16 m 0 + size) % 65536)

/-- a_pop (line 105): the uint16 field at byte 0 shrinks by the frame size,
with 16-bit wraparound. -/
def a_pop (m : Mem) (size : Nat) : Mem :=
  set16 m 0 ((get16 m 0 + 65536 - size % 65536) % 65536)

/-- Result of one coroutine invocation: the returned status, the memory
after the call, and the sizes passed to the async_err callback during the
call (the example's async_err only prints, so the callback itself does not
mutate the arena). -/
structure InvokeResult where
  status : Nat
  mem : Mem
  errCalls : List Nat

/-- async_begin (lines 89-100) together with the return macros: the bounds
check `(*s_idx + sizeof(struct locals)) > *s_max` guards the allocation.
On overflow the source calls async_err, then a_pop, then returns ASYNC_ERR.
Otherwise the frame base is the current writeOffset, a_push activates the
frame, and the body runs; every return macro of the body (await_while,
async_yield, async_exit, async_end, lines 107-116) ends with `a_pop();
return status;`, so the trailing a_pop is factored out here and `body`
covers everything in between (dispatch on the stored label included). -/
def async_begin_run (frameSize : Nat) (body : Mem → Nat → Nat × Mem) (m : Mem) :
    InvokeResult :=
  if get16 m 0 + frameSize > get16 m 2 then
    { status := ASYNC_ERR, mem := a_pop m frameSize, errCalls := [frameSize] }
  else
    { status := (body (a_push m frameSize) (get16 m 0)).1
      mem := a_pop (body (a_push m frameSize) (get16 m 0)).2 frameSize
      errCalls := [] }

/-- async_exit (line 116): `l->spot = ASYNC_DONE; a_pop(); return ASYNC_DONE`,
for a frame based at byte offset `base`. -/
def async_exit_ret (frameSize base : Nat) (m : Mem) : Nat × Mem :=
  (ASYNC_DONE, a_pop (set16 m base ASYNC_DONE) frameSize)

/-- async_end (line 107): `case ASYNC_DONE: a_pop(); return ASYNC_DONE`;
the stored label is not written. -/
def async_end_ret (frameSize : Nat) (m : Mem) : Nat × Mem :=
  (ASYNC_DONE, a_pop m frameSize)

/-- The __LINE__ value of the async_yield in bfunc (example1.c line 49),
used as that suspend point's resumption label. -/
def BFUNC_YIELD_LINE : Nat := 49

/-- bfunc, at the for loop's test with the current value of `l->i` (frame
field at byte `base + 2`): if `i < repeat` the body prints, stores the yield
label into `l->spot` (byte `base`) and returns ASYNC_CONT; otherwise control
falls out of the loop into the `case ASYNC_DONE:` of async_end and returns
ASYNC_DONE (the trailing a_pop is performed by the wrapper). -/
def bfunc_loop_test (rpt : Nat) (m : Mem) (base : Nat) : Nat × Mem :=
  if get16 m (base + 2) < rpt then
    (ASYNC_CONT, set16 m base BFUNC_YIELD_LINE)
  else
    (ASYNC_DONE, m)

/-- bfunc from the top of the body (the `default:` case of the dispatch):
the for-init `l->i = 0` runs, then the loop test. -/
def bfunc_from_top (rpt : Nat) (m : Mem) (base : Nat) : Nat × Mem :=
  bfunc_loop_test rpt (set16 m (base + 2) 0) base

/-- The dispatch and body of bfunc (example1.c lines 40-53) after macro
expansion: `switch (l->spot)` sends the yield label to the statement after
the yield (so `l->i++` runs, then the loop test), sends ASYNC_DONE to
async_end, and sends everything else to `default:`, the top of the body. -/
def bfunc_body (rpt : Nat) (m : Mem) (base : Nat) : Nat × Mem :=
  if get16 m base = BFUNC_YIELD_LINE then
    bfunc_loop_test rpt (set16 m (base + 2) ((get16 m (base + 2) + 1) % 65536)) base
  else if get16 m base = ASYNC_DONE then
    (ASYNC_DONE, m)
  else
    bfunc_from_top rpt m base

/-- One invocation of bfunc: frame is `struct locals { uint16_t spot;
uint16_t i; }`, 4 bytes. -/
def bfunc (rpt : Nat) (m : Mem) : InvokeResult :=
  async_begin_run 4 (bfunc_body rpt) m

/-- An all-zero arena buffer. -/
def zeroMem : Mem := fun _ => 0

/-- The await condition of afunc (example1.c line 71): the three child
statuses combined with bitwise AND, left associated as in C. -/
def afunc_join (s1 s2 s3 : Nat) : Nat :=
  (s1 &&& s2) &&& s3

/-- await(cond) (lines 111-112) expands to await_while(!(cond)): the
coroutine suspends (returns ASYNC_CONT) exactly when the joined value is
zero. -/
def await_join_suspends (v : Nat) : Bool :=
  v == 0

/-- FE_1 (line 36): takes exactly one remaining argument; any other
argument count is a preprocessing error (ISO C 6.10.3p4), modelled as
`none`. -/
def FE_1 : List α → Option (List α)
  | [x] => some [x]
  | _ => none

/-- FE_2 (line 37): one field for the head, FE_1 on the rest. -/
def FE_2 : List α → Option (List α)
  | x :: rest => (FE_1 rest).map (fun ds => x :: ds)
  | [] => none

/-- FE_3 (line 38). -/
def FE_3 : List α → Option (List α)
  | x :: rest => (FE_2 rest).map (fun ds => x :: ds)
  | [] => none

/-- FE_4 (line 39). -/
def FE_4 : List α → Option (List α)
  | x :: rest => (FE_3 rest).map (fun ds => x :: ds)
  | [] => none

/-- FE_5 (line 40). -/
def FE_5 : List α → Option (List α)
  | x :: rest => (FE_4 rest).map (fun ds => x :: ds)
  | [] => none

/-- FE_6 (line 41): delegates to FE_4, not FE_5, exactly as the source. -/
def FE_6 : List α → Option (List α)
  | x :: rest => (FE_4 rest).map (fun ds => x :: ds)
  | [] => none

/-- FE_7 (line 42): delegates to FE_4. -/
def FE_7 : List α → Option (List α)
  | x :: rest => (FE_4 rest).map (fun ds => x :: ds)
  | [] => none

/-- FE_8 (line 43): delegates to FE_4. -/
def FE_8 : List α → Option (List α)
  | x :: rest => (FE_4 rest).map (fun ds => x :: ds)
  | [] => none

/-- FE_9 (line 44): delegates to FE_4. -/
def FE_9 : List α → Option (List α)
  | x :: rest => (FE_4 rest).map (fun ds => x :: ds)
  | [] => none

/-- FE_10 (line 45): delegates to FE_4. -/
def FE_10 : List α → Option (List α)
  | x :: rest => (FE_4 rest).map (fun ds => x :: ds)
  | [] => none

/-- FE_0 (line 35): expands to nothing. -/
def FE_0 : List α → Option (List α)
  | [] => some []
  | _ => none

/-- FOR_EACH (lines 47-49): the GET_MACRO dispatch selects FE_n for n
arguments, n up to 10; the resulting list is the sequence of field
declarations produced (L_DEFINE emits one declaration per argument). -/
def FOR_EACH (l : List α) : Option (List α) :=
  match l.length with
  | 0 => FE_0 l
  | 1 => FE_1 l
  | 2 => FE_2 l
  | 3 => FE_3 l
  | 4 => FE_4 l
  | 5 => FE_5 l
  | 6 => FE_6 l
  | 7 => FE_7 l
  | 8 => FE_8 l
  | 9 => FE_9 l
  | 10 => FE_10 l
  | _ => none

/-- The field list of async_begin's locals struct (line 92):
`L_DEFINES(uint16_t spot, __VA_ARGS__)`, so the spot field is prepended to
the declared locals before FOR_EACH runs. -/
def async_begin_fields (spotField : α) (locals : List α) : Option (List α) :=
  FOR_EACH (spotField :: locals)

theorem get16_lt (m : Mem) (off : Nat) : get16 m off < 65536 := by
  unfold get16
  omega

theorem get16_set16_self (m : Mem) (off v : Nat) :
    get16 (set16 m off v) off = v % 65536 := by
  have hne : off + 1 ≠ off := by omega
  simp [get16, set16, hne]
  omega

theorem get16_set16_ne (m : Mem) (off off2 v : Nat)
    (h : off + 2 ≤ off2 ∨ off2 + 2 ≤ off) :
    get16 (set16 m off2 v) off = get16 m off := by
  unfold get16 set16
  have h1 : off ≠ off2 := by omega
  have h2 : off ≠ off2 + 1 := by omega
  have h3 : off + 1 ≠ off2 := by omega
  have h4 : off + 1 ≠ off2 + 1 := by omega
  simp [h1, h2, h3, h4]

/-- Claim C1: the claim states that an overflowing invocation leaves
writeOffset unchanged, calls async_err exactly once with the requested
frame size, returns ERROR, and that repeating it reproduces identical
behavior.  The code instead executes a_pop() on the overflow path: on an
arena initialized with capacity 4, the first bfunc call does report ERROR
and call async_err once with size 4, but writeOffset drops from 4 to 0,
and the repeated identical invocation then passes the bounds check and
returns CONTINUE instead of ERROR. -/
theorem c1_overflow_pops_writeOffset :
    (bfunc 1 (async_init zeroMem 4)).status = ASYNC_ERR ∧
    (bfunc 1 (async_init zeroMem 4)).errCalls = [4] ∧
    get16 (async_init zeroMem 4) 0 = 4 ∧
    get16 (bfunc 1 (async_init zeroMem 4)).mem 0 = 0 ∧
    (bfunc 1 (bfunc 1 (async_init zeroMem 4)).mem).status = ASYNC_CONT ∧
    ASYNC_CONT ≠ ASYNC_ERR := by
  refine ⟨by decide, by decide, by decide, by decide, by decide, by decide⟩

/-- Claim C2: the claim states writeOffset is at most capacity after
async_init and after every invocation, on every return path.  The spurious
a_pop() on the overflow path breaks this: on a capacity-4 arena, after an
overflowing bfunc call (writeOffset 4 to 0) and the subsequent call (which
then allocates the frame at offset 0, over the header), the arena holds
writeOffset = 45 and capacity = 0, violating the invariant. -/
theorem c2_invariant_violated :
    get16 (async_init zeroMem 4) 0 ≤ get16 (async_init zeroMem 4) 2 ∧
    get16 (bfunc 1 (bfunc 1 (async_init zeroMem 4)).mem).mem 0 = 45 ∧
    get16 (bfunc 1 (bfunc 1 (async_init zeroMem 4)).mem).mem 2 = 0 ∧
    ¬ get16 (bfunc 1 (bfunc 1 (async_init zeroMem 4)).mem).mem 0 ≤
        get16 (bfunc 1 (bfunc 1 (async_init zeroMem 4)).mem).mem 2 := by
  refine ⟨by decide, by decide, by decide, by decide⟩

/-- Claim C3, counterexample: the claim states that before every return
that represents finished — the terminal marker async_end reached by
falling off the end of the body included — the resumption label is set to
ASYNC_DONE.  Running bfunc with repeat = 0 on a capacity-64 arena, the
first invocation falls off the end of the body and returns ASYNC_DONE, yet
the frame's stored label (byte offset 4) still holds ASYNC_INIT, not
ASYNC_DONE. -/
theorem c3_end_does_not_set_label :
    (bfunc 0 (async_init zeroMem 64)).status = ASYNC_DONE ∧
    get16 (bfunc 0 (async_init zeroMem 64)).mem 4 = ASYNC_INIT ∧
    ASYNC_INIT ≠ ASYNC_DONE := by
  refine ⟨by decide, by decide, by decide⟩

/-- Claim C3, amended: before returning DONE, async_exit releases the
frame and sets the stored resumption label to ASYNC_DONE, so a later
re-invocation is detectable; async_end (reached by falling off the end of
the body) releases the frame and returns DONE but leaves the stored label
unchanged, so completion through the terminal marker is not marked. -/
theorem c3_exit_sets_label_end_does_not (frameSize base : Nat) (m : Mem)
    (hbase : 2 ≤ base) :
    (async_exit_ret frameSize base m).1 = ASYNC_DONE ∧
    get16 (async_exit_ret frameSize base m).2 base = ASYNC_DONE ∧
    (async_end_ret frameSize m).1 = ASYNC_DONE ∧
    get16 (async_end_ret frameSize m).2 base = get16 m base := by
  refine ⟨rfl, ?_, rfl, ?_⟩
  · unfold async_exit_ret a_pop
    rw [get16_set16_ne _ base 0 _ (Or.inr (by omega)), get16_set16_self]
    decide
  · unfold async_end_ret a_pop
    rw [get16_set16_ne _ base 0 _ (Or.inr (by omega))]

/-- Witness for c3_exit_sets_label_end_does_not at frame size 4, base 4,
on the all-zero arena. -/
theorem c3_exit_sets_label_end_does_not_witness :
    (async_exit_ret 4 4 zeroMem).1 = ASYNC_DONE ∧
    get16 (async_exit_ret 4 4 zeroMem).2 4 = ASYNC_DONE ∧
    (async_end_ret 4 zeroMem).1 = ASYNC_DONE ∧
    get16 (async_end_ret 4 zeroMem).2 4 = get16 zeroMem 4 :=
  c3_exit_sets_label_end_does_not 4 4 zeroMem (by decide)

/-- Claim C4: resumption at the stored yield label re-enters exactly after
the yield (the increment of `l->i` and the loop test run; the for-init
`l->i = 0` before the suspend point is not re-executed), and concretely,
bfunc with repeat = 3 on a capacity-64 arena returns CONTINUE on
invocations 1-3 and DONE on invocation 4, with the counter `l->i` (byte
offset 6) holding 0, 1, 2 after the three CONTINUE invocations. -/
theorem c4_resumption_and_loop_trace :
    (∀ (rpt : Nat) (m : Mem) (base : Nat),
      get16 m base = BFUNC_YIELD_LINE →
      bfunc_body rpt m base =
        bfunc_loop_test rpt
          (set16 m (base + 2) ((get16 m (base + 2) + 1) % 65536)) base) ∧
    (bfunc 3 (async_init zeroMem 64)).status = ASYNC_CONT ∧
    (bfunc 3 (bfunc 3 (async_init zeroMem 64)).mem).status = ASYNC_CONT ∧
    (bfunc 3 (bfunc 3 (bfunc 3 (async_init zeroMem 64)).mem).mem).status =
      ASYNC_CONT ∧
    (bfunc 3 (bfunc 3 (bfunc 3 (bfunc 3
        (async_init zeroMem 64)).mem).mem).mem).status = ASYNC_DONE ∧
    get16 (bfunc 3 (async_init zeroMem 64)).mem 6 = 0 ∧
    get16 (bfunc 3 (bfunc 3 (async_init zeroMem 64)).mem).mem 6 = 1 ∧
    get16 (bfunc 3 (bfunc 3 (bfunc 3
        (async_init zeroMem 64)).mem).mem).mem 6 = 2 := by
  refine ⟨?_, by decide, by decide, by decide, by decide, by decide,
    by decide, by decide⟩
  intro rpt m base h
  unfold bfunc_body
  rw [if_pos h]

/-- Witness for the universally quantified part of
c4_resumption_and_loop_trace: the arena after the first CONTINUE of the
traced run stores the yield label at byte 4, and the resumption equation
holds there. -/
theorem c4_resumption_and_loop_trace_witness :
    bfunc_body 3 (bfunc 3 (async_init zeroMem 64)).mem 4 =
      bfunc_loop_test 3
        (set16 (bfunc 3 (async_init zeroMem 64)).mem 6
          ((get16 (bfunc 3 (async_init zeroMem 64)).mem 6 + 1) % 65536)) 4 :=
  c4_resumption_and_loop_trace.1 3 (bfunc 3 (async_init zeroMem 64)).mem 4
    (by decide)

/-- Claim C5: in the reference encoding ASYNC_CONT is the unique all-zero
status and ASYNC_ERR, ASYNC_DONE are distinct non-zero values; the
AND-based join of afunc stops waiting when all three children are DONE or
all three are ERROR, but ASYNC_ERR AND ASYNC_DONE is zero, so with a mix
of ERROR and DONE the join spuriously keeps waiting. -/
theorem c5_status_encoding_and_join :
    ASYNC_CONT = 0 ∧ ASYNC_ERR ≠ 0 ∧ ASYNC_DONE ≠ 0 ∧
    ASYNC_ERR ≠ ASYNC_DONE ∧
    afunc_join ASYNC_DONE ASYNC_DONE ASYNC_DONE ≠ 0 ∧
    afunc_join ASYNC_ERR ASYNC_ERR ASYNC_ERR ≠ 0 ∧
    ASYNC_ERR &&& ASYNC_DONE = 0 ∧
    afunc_join ASYNC_ERR ASYNC_DONE ASYNC_DONE = 0 ∧
    await_join_suspends (afunc_join ASYNC_ERR ASYNC_DONE ASYNC_DONE) = true ∧
    await_join_suspends (afunc_join ASYNC_DONE ASYNC_DONE ASYNC_DONE) = false := by
  refine ⟨by decide, by decide, by decide, by decide, by decide, by decide,
    by decide, by decide, by decide, by decide⟩

/-- Claim C6: an invocation that does not report ERROR bumps writeOffset
by the frame size on entry and rolls it back by the same amount before
returning, so writeOffset equals its pre-call value (stated for any body
that, like every macro-generated body, leaves the writeOffset field
alone between the push and the final pop); and concretely, two sibling
bfunc coroutines driven to completion one after the other on the same
capacity-64 arena both reach DONE and leave writeOffset at its pre-call
value 4. -/
theorem c6_writeOffset_balanced :
    (∀ (fs : Nat) (body : Mem → Nat → Nat × Mem) (m : Mem),
      get16 (body (a_push m fs) (get16 m 0)).2 0 = get16 (a_push m fs) 0 →
      (async_begin_run fs body m).status ≠ ASYNC_ERR →
      get16 (async_begin_run fs body m).mem 0 = get16 m 0) ∧
    (bfunc 0 (async_init zeroMem 64)).status = ASYNC_DONE ∧
    (bfunc 2 (bfunc 0 (async_init zeroMem 64)).mem).status = ASYNC_CONT ∧
    (bfunc 2 (bfunc 2 (bfunc 0 (async_init zeroMem 64)).mem).mem).status =
      ASYNC_CONT ∧
    (bfunc 2 (bfunc 2 (bfunc 2 (bfunc 0
        (async_init zeroMem 64)).mem).mem).mem).status = ASYNC_DONE ∧
    get16 (async_init zeroMem 64) 0 = 4 ∧
    get16 (bfunc 2 (bfunc 2 (bfunc 2 (bfunc 0
        (async_init zeroMem 64)).mem).mem).mem).mem 0 = 4 := by
  refine ⟨?_, by decide, by decide, by decide, by decide, by decide, by decide⟩
  intro fs body m hbody hst
  by_cases hc : get16 m 0 + fs > get16 m 2
  · exfalso
    apply hst
    unfold async_begin_run
    rw [if_pos hc]
  · unfold async_begin_run
    rw [if_neg hc]
    show get16 (a_pop (body (a_push m fs) (get16 m 0)).2 fs) 0 = get16 m 0
    unfold a_pop
    rw [get16_set16_self, hbody]
    unfold a_push
    rw [get16_set16_self]
    have hlt0 := get16_lt m 0
    have hlt2 := get16_lt m 2
    omega

/-- Witness for the universally quantified part of c6_writeOffset_balanced
at frame size 4, body bfunc_body 3, on a freshly initialized capacity-64
arena. -/
theorem c6_writeOffset_balanced_witness :
    get16 (async_begin_run 4 (bfunc_body 3) (async_init zeroMem 64)).mem 0 =
      get16 (async_init zeroMem 64) 0 :=
  c6_writeOffset_balanced.1 4 (bfunc_body 3) (async_init zeroMem 64)
    (by decide) (by decide)

/-- Claim C7: on an arena of capacity 8 = headerSize + one bfunc frame,
the first allocation passes the bounds check (and the call does not report
exhaustion), a second allocation attempted while the first frame is active
(writeOffset already pushed) fails the bounds check, calls async_err with
the requested size 4 and returns ERROR; and in general a successful
allocation (no async_err call) implies the frame bytes fit below capacity:
writeOffset + frameSize is at most capacity. -/
theorem c7_exactly_one_frame :
    get16 (async_init zeroMem 8) 2 = headerSize + 4 ∧
    get16 (async_init zeroMem 8) 0 + 4 ≤ get16 (async_init zeroMem 8) 2 ∧
    (bfunc 1 (async_init zeroMem 8)).errCalls = [] ∧
    (bfunc 1 (async_init zeroMem 8)).status ≠ ASYNC_ERR ∧
    get16 (a_push (async_init zeroMem 8) 4) 0 + 4 >
      get16 (a_push (async_init zeroMem 8) 4) 2 ∧
    (bfunc 1 (a_push (async_init zeroMem 8) 4)).status = ASYNC_ERR ∧
    (bfunc 1 (a_push (async_init zeroMem 8) 4)).errCalls = [4] ∧
    (∀ (fs : Nat) (body : Mem → Nat → Nat × Mem) (m : Mem),
      (async_begin_run fs body m).errCalls = [] →
      get16 m 0 + fs ≤ get16 m 2) := by
  refine ⟨by decide, by decide, by decide, by decide, by decide, by decide,
    by decide, ?_⟩
  intro fs body m h
  by_cases hc : get16 m 0 + fs > get16 m 2
  · exfalso
    unfold async_begin_run at h
    rw [if_pos hc] at h
    exact List.cons_ne_nil fs [] h
  · omega

/-- Witness for the universally quantified part of c7_exactly_one_frame at
frame size 4, body bfunc_body 1, on a freshly initialized capacity-8
arena. -/
theorem c7_exactly_one_frame_witness :
    get16 (async_init zeroMem 8) 0 + 4 ≤ get16 (async_init zeroMem 8) 2 :=
  c7_exactly_one_frame.2.2.2.2.2.2.2 4 (bfunc_body 1) (async_init zeroMem 8)
    (by decide)

/-- Claim C8: async_init is a total operation that writes the 16-bit field
at byte offset 0 (writeOffset) to the header size 4, the 16-bit field at
byte offset 2 (capacity) to the given capacity, and the 16-bit field at
byte offset 4 (the top-level resumption label, the first frame field
placed immediately after the 4-byte header at writeOffset) to ASYNC_INIT,
for every prior memory content and every capacity below 65536. -/
theorem c8_init_header_fields (m : Mem) (len : Nat) (hlen : len < 65536) :
    get16 (async_init m len) 0 = headerSize ∧
    headerSize = 4 ∧
    get16 (async_init m len) 2 = len ∧
    get16 (async_init m len) 4 = ASYNC_INIT := by
  refine ⟨?_, rfl, ?_, ?_⟩
  · unfold async_init
    rw [get16_set16_ne _ 0 4 _ (Or.inl (by omega)),
      get16_set16_ne _ 0 2 _ (Or.inl (by omega)), get16_set16_self]
    decide
  · unfold async_init
    rw [get16_set16_ne _ 2 4 _ (Or.inl (by omega)), get16_set16_self]
    omega
  · unfold async_init
    rw [get16_set16_self]
    decide

/-- Witness for c8_init_header_fields on the all-zero buffer with capacity
64 (the arena of example1.c's main). -/
theorem c8_init_header_fields_witness :
    get16 (async_init zeroMem 64) 0 = headerSize ∧
    headerSize = 4 ∧
    get16 (async_init zeroMem 64) 2 = 64 ∧
    get16 (async_init zeroMem 64) 4 = ASYNC_INIT :=
  c8_init_header_fields zeroMem 64 (by decide)

/-- Claim C9: bfunc's dispatch places the top of the body under the
switch's default case, and ASYNC_INIT shares the value 0 with ASYNC_CONT;
every stored label other than the established yield label and the terminal
sentinel ASYNC_DONE — any corrupted or unknown value included — makes the
body run from the top (the for-init and loop test), with no error
reported. -/
theorem c9_unknown_label_runs_from_top :
    (∀ (rpt : Nat) (m : Mem) (base : Nat),
      get16 m base ≠ BFUNC_YIELD_LINE →
      get16 m base ≠ ASYNC_DONE →
      bfunc_body rpt m base = bfunc_from_top rpt m base) ∧
    ASYNC_INIT = ASYNC_CONT ∧ ASYNC_INIT = 0 := by
  refine ⟨?_, rfl, rfl⟩
  intro rpt m base h1 h2
  unfold bfunc_body
  rw [if_neg h1, if_neg h2]

/-- Witness for the universally quantified part of
c9_unknown_label_runs_from_top: a corrupted label value 1000 stored at
byte 4 dispatches to the top of the body. -/
theorem c9_unknown_label_runs_from_top_witness :
    bfunc_body 3 (set16 zeroMem 4 1000) 4 =
      bfunc_from_top 3 (set16 zeroMem 4 1000) 4 :=
  c9_unknown_label_runs_from_top.1 3 (set16 zeroMem 4 1000) 4
    (by decide) (by decide)

/-- Claim C10, counterexample: the claim states the expansion produces one
struct field per declared local for 0 through 5 locals.  With 5 declared
locals, async_begin prepends the spot field, so FOR_EACH receives 6
arguments and dispatches to FE_6, which delegates to FE_4; the chain ends
in FE_1 applied to 2 remaining arguments, a preprocessing error, and no
field list is produced at all. -/
theorem c10_five_locals_fail :
    async_begin_fields (0 : Nat) [1, 2, 3, 4, 5] = none ∧
    async_begin_fields (0 : Nat) [1, 2, 3, 4, 5] ≠
      some [0, 1, 2, 3, 4, 5] := by
  refine ⟨by decide, by decide⟩

/-- Claim C10, amended: FOR_EACH produces one field per argument only for
1 through 5 arguments; since async_begin passes the spot field plus the
declared locals, only 0 through 4 declared locals are laid out correctly,
while 5 through 9 declared locals (6 through 10 FOR_EACH arguments, where
FE_6 through FE_10 delegate to FE_4) produce no correct field list
(despite the stated limit of 10 locals). -/
theorem c10_field_expansion_arity :
    (∀ (s : Nat), async_begin_fields s ([] : List Nat) = some [s]) ∧
    (∀ (s a : Nat), async_begin_fields s [a] = some [s, a]) ∧
    (∀ (s a b : Nat), async_begin_fields s [a, b] = some [s, a, b]) ∧
    (∀ (s a b c : Nat), async_begin_fields s [a, b, c] = some [s, a, b, c]) ∧
    (∀ (s a b c d : Nat),
      async_begin_fields s [a, b, c, d] = some [s, a, b, c, d]) ∧
    (∀ (s a b c d e : Nat), async_begin_fields s [a, b, c, d, e] = none) ∧
    (∀ (s a b c d e f : Nat), async_begin_fields s [a, b, c, d, e, f] = none) ∧
    (∀ (s a b c d e f g : Nat),
      async_begin_fields s [a, b, c, d, e, f, g] = none) ∧
    (∀ (s a b c d e f g i : Nat),
      async_begin_fields s [a, b, c, d, e, f, g, i] = none) ∧
    (∀ (s a b c d e f g i j : Nat),
      async_begin_fields s [a, b, c, d, e, f, g, i, j] = none) := by
  refine ⟨fun s => rfl, fun s a => rfl, fun s a b => rfl, fun s a b c => rfl,
    fun s a b c d => rfl, fun s a b c d e => rfl, fun s a b c d e f => rfl,
    fun s a b c d e f g => rfl, fun s a b c d e f g i => rfl,
    fun s a b c d e f g i j => rfl⟩

end Asyncc
